import Mathlib

/-!
Verification of the Bubbles demo (`src/bubbles.cpp`).

The file shallowly embeds the pure logic of the program: the vertex
shader position fold, the command-line backend selection, the bubble
generation, the shader build error paths, and the per-frame loop state
(resize handling, frame-counter uniform upload, FPS reporting).
Floating point arithmetic in the source is modelled over the rationals;
the pseudo-random stream of `frand()` is modelled as an arbitrary
function `ℕ → ℚ` with values in `[0, 1]`.  GL calls that only move data
to the GPU are recorded as events.

Definitions come first, theorems afterwards.
-/

namespace Bubbles

/-! ## Definitions -/

/-- GLSL `mod(x, y) = x - y * floor(x/y)`, over the rationals. -/
def gmod (x y : ℚ) : ℚ := x - y * ⌊x / y⌋

/-- One axis of the vertex shader bounce (`vs`, bubbles.cpp lines 27-30):
initial center `c0`, velocity `v`, radius `r`, window extent `W`, frame
index `T`.  The shader computes `center = c0 + v*T`, `span = W - 2r`,
then `span - abs(span - mod(center - r, span * 2)) + r`. -/
def wrapped (c0 v r W T : ℚ) : ℚ :=
  (W - 2 * r) - |(W - 2 * r) - gmod ((c0 + v * T) - r) ((W - 2 * r) * 2)| + r

/-- The ANGLE platform backends selectable from the command line. -/
inductive Backend
  | opengl
  | opengles
  | d3d11
  | vulkan
  | metal
deriving DecidableEq

/-- One step of the argument scan (bubbles.cpp lines 127-146): a
recognized flag overwrites the current hint value, anything else leaves
it unchanged. -/
def applyFlag (b : Backend) (arg : String) : Backend :=
  if arg = "--gl" then Backend.opengl
  else if arg = "--gles" then Backend.opengles
  else if arg = "--d3d" then Backend.d3d11
  else if arg = "--vk" then Backend.vulkan
  else if arg = "--mtl" then Backend.metal
  else b

/-- The backend resolved by `main` for a given argument list: the hint
starts at Vulkan (bubbles.cpp line 124) and the arguments are scanned
left to right. -/
def parseBackend (args : List String) : Backend :=
  args.foldl applyFlag Backend.vulkan

/-- Spec-side reading of a single flag, used to state last-flag-wins. -/
def flagBackend (arg : String) : Option Backend :=
  if arg = "--gl" then some Backend.opengl
  else if arg = "--gles" then some Backend.opengles
  else if arg = "--d3d" then some Backend.d3d11
  else if arg = "--vk" then some Backend.vulkan
  else if arg = "--mtl" then some Backend.metal
  else none

/-- Spec-side resolution: the last recognized flag wins, default Vulkan. -/
def lastFlagBackend (args : List String) : Backend :=
  ((args.filterMap flagBackend).getLast?).getD Backend.vulkan

/-- Linear interpolation `lerp(a, b, t) = a + (b - a) * t` (bubbles.cpp line 110). -/
def lerp (a b t : ℚ) : ℚ := a + (b - a) * t

/-- One bubble record (bubbles.cpp lines 103-108). -/
structure Bubble where
  x : ℚ
  y : ℚ
  r : ℚ
  dx : ℚ
  dy : ℚ
  color : ℚ × ℚ × ℚ × ℚ

/-- The body of the generation loop (bubbles.cpp lines 198-208), with
`u 0, u 1, ...` the successive `frand()` draws in call order (radius
bias, x, y, dx, dy, four color channels).  `frand(lo, hi)` is
`lerp lo hi` of a draw. -/
def mkBubble (u : ℕ → ℚ) : Bubble :=
  let r := lerp (1/10) (3/10) ((u 0) ^ 4)
  { x := (lerp (-1 + r) (1 - r) (u 1) + 1) * 1024
    y := (lerp (-1 + r) (1 - r) (u 2) + 1) * 1024
    r := r * 1024
    dx := (u 3 - 1/2) * (2/100) * 1024
    dy := (u 4 - 1/2) * (2/100) * 1024
    color := (lerp (1/2) 1 (u 5), lerp (1/2) 1 (u 6), lerp (1/2) 1 (u 7),
              lerp (3/4) 1 (u 8)) }

/-- The generated population: `n` bubbles, each consuming the next nine
draws of the stream (bubbles.cpp lines 196-208; `n = 800`). -/
def genBubbles (u : ℕ → ℚ) (n : ℕ) : List Bubble :=
  (List.range n).map (fun i => mkBubble (fun j => u (9 * i + j)))

/-- Outcome reported by the GL driver for one compile or link call:
the status flag and the info log text. -/
structure CompileResult where
  ok : Bool
  log : String

/-- The `%4i` format used for the source listing: the decimal digits
right-justified in a field of width four. -/
def pad4 (n : ℕ) : String :=
  String.mk (List.replicate (4 - (toString n).length) ' ') ++ toString n

/-- The source-listing loop of `compile_and_attach_shader`
(bubbles.cpp lines 65-71): each line prefixed by the running counter
`l` via `%4i| `. -/
def numberLines (l : ℕ) : List String → List String
  | [] => []
  | s :: rest => (pad4 l ++ "| " ++ s) :: numberLines (l + 1) rest

/-- The numbered source listing printed on a compile failure: the
counter starts at 1 (bubbles.cpp line 65). -/
def numberedSource (lines : List String) : List String :=
  numberLines 1 lines

/-- Result of `compile_and_attach_shader`: the boolean it returns, the
lines it printed to stderr, and whether `glDeleteShader` ran. -/
structure AttachResult where
  ok : Bool
  err : List String
  shaderDeleted : Bool

/-- The function `compile_and_attach_shader` (bubbles.cpp lines 51-80): on failure it
prints a header, the numbered source, and the info log, deletes the
shader and returns false; on success it attaches, deletes the shader
handle and returns true. -/
def compileAndAttachShader (res : CompileResult) (src : List String) : AttachResult :=
  if res.ok then { ok := true, err := [], shaderDeleted := true }
  else
    { ok := false
      err := "Failed to compile shader" :: (numberedSource src ++ [res.log])
      shaderDeleted := true }

/-- The function `link_program` (bubbles.cpp lines 82-98): on failure it prints one
line containing the linker log and returns false. -/
def linkProgram (res : CompileResult) : Bool × List String :=
  if res.ok then (true, [])
  else (false, ["Failed to link program " ++ res.log])

/-- The vertex shader source `vs` (bubbles.cpp lines 14-33), split into
the lines `std::getline` produces. -/
def vsSourceLines : List String :=
  [ "#version 310 es"
  , "precision highp float;"
  , "uniform vec2 window;"
  , "uniform float T;"
  , "layout(location=0) in vec3 bubble;"
  , "layout(location=1) in vec2 speed;"
  , "layout(location=2) in vec4 incolor;"
  , "out vec2 coord;"
  , "out vec4 color;"
  , "void main() \x7b"
  , "    vec2 offset = vec2((gl_VertexID & 1) == 0 ? -1.0 : 1.0, (gl_VertexID & 2) == 0 ? -1.0 : 1.0);"
  , "    coord = offset;"
  , "    color = incolor;"
  , "    float r = bubble.z;"
  , "    vec2 center = bubble.xy + speed * T;"
  , "    vec2 span = window - 2.0 * r;"
  , "    center = span - abs(span - mod(center - r, span * 2.0)) + r;"
  , "    gl_Position.xy = (center + offset * r) * 2.0 / window - 1.0;"
  , "    gl_Position.zw = vec2(0, 1);"
  , "\x7d" ]

/-- The fragment shader source `fs` (bubbles.cpp lines 35-49), split
into the lines `std::getline` produces. -/
def fsSourceLines : List String :=
  [ "#version 310 es"
  , "precision mediump float;"
  , ""
  , "in vec2 coord;"
  , "in vec4 color;"
  , ""
  , "layout(binding=0, r32ui) uniform highp coherent writeonly uimage2D framebuffer;"
  , ""
  , "void main() \x7b"
  , "    ivec2 pixelCoord = ivec2(floor(gl_FragCoord.xy));"
  , "    float f = coord.x * coord.x + coord.y * coord.y - 1.0;"
  , "    float coverage = clamp(.5 - f/fwidth(f), 0.0, 1.0);"
  , "    vec4 s = vec4(color.rgb, 1) * (color.a * mix(.25, 1.0, dot(coord, coord)) * coverage);"
  , "    imageStore(framebuffer, pixelCoord, uvec4(packUnorm4x8(s)));"
  , "\x7d" ]

/-- The shader-build step of `main` (bubbles.cpp lines 185-190): compile
and attach `vs`, then `fs`, then link, short-circuiting.  Returns
`some (-1)` (the exit code, aborting before the frame loop) on any
failure, `none` on success, together with everything printed to stderr. -/
def shaderBuild (vres fres lres : CompileResult) : Option Int × List String :=
  let v := compileAndAttachShader vres vsSourceLines
  if v.ok = false then (some (-1), v.err)
  else
    let f := compileAndAttachShader fres fsSourceLines
    if f.ok = false then (some (-1), v.err ++ f.err)
    else
      let l := linkProgram lres
      if l.1 = false then (some (-1), v.err ++ f.err ++ l.2)
      else (none, [])

/-- The bubble population `constexpr int n = 800` (bubbles.cpp line 196). -/
def numBubbles : ℕ := 800

/-- Observable GPU/stdout actions of one frame-loop iteration. -/
inductive REvent
  | printLine (s : String)
  | recreateTarget (w h : ℤ)
  | uploadT (t : ℕ)
  | drawInstanced (verts instances : ℕ)
  | blit (w h : ℤ)
deriving DecidableEq

/-- Whether an event is the destroy-and-recreate of the off-screen
target (bubbles.cpp lines 263-275). -/
def REvent.isResize : REvent → Bool
  | .recreateTarget _ _ => true
  | _ => false

/-- Whether an event is a stdout line. -/
def REvent.isStdout : REvent → Bool
  | .printLine _ => true
  | _ => false

/-- The mutable state of the frame loop (bubbles.cpp lines 237-251):
the frame counter, the cached framebuffer size, and the resources the
resize branch rewrites (texture, viewport, window uniform). -/
structure RenderState where
  totalFrames : ℕ
  lastWidth : ℤ
  lastHeight : ℤ
  texCreated : Bool
  texW : ℤ
  texH : ℤ
  viewportW : ℤ
  viewportH : ℤ
  windowUniformW : ℤ
  windowUniformH : ℤ

/-- The announcement printed by the resize branch
(bubbles.cpp line 259): `rendering <n> bubbles at <width> x <height>`. -/
def resizeMessage (w h : ℤ) : String :=
  "rendering " ++ toString numBubbles ++ " bubbles at " ++ toString w ++ " x " ++ toString h

/-- One iteration of the frame loop (bubbles.cpp lines 253-298) given
the observed framebuffer size `(w, h)`: the resize branch runs iff the
observed size differs from the cached one; then the frame counter is
uploaded post-increment (`totalFrames++`), the instanced draw is issued
and the off-screen target is blitted. -/
def iterateFrame (s : RenderState) (w h : ℤ) : List REvent × RenderState :=
  if s.lastWidth ≠ w ∨ s.lastHeight ≠ h then
    ([REvent.printLine (resizeMessage w h), REvent.recreateTarget w h,
      REvent.uploadT s.totalFrames, REvent.drawInstanced 4 numBubbles, REvent.blit w h],
     { s with totalFrames := s.totalFrames + 1,
              lastWidth := w, lastHeight := h,
              texCreated := true, texW := w, texH := h,
              viewportW := w, viewportH := h,
              windowUniformW := w, windowUniformH := h })
  else
    ([REvent.uploadT s.totalFrames, REvent.drawInstanced 4 numBubbles, REvent.blit w h],
     { s with totalFrames := s.totalFrames + 1 })

/-- The event lists of the successive frame-loop iterations for a given
sequence of observed framebuffer sizes. -/
def loopEvents : RenderState → List (ℤ × ℤ) → List (List REvent)
  | _, [] => []
  | s, (w, h) :: rest => (iterateFrame s w h).1 :: loopEvents (iterateFrame s w h).2 rest

/-- The loop state after consuming a sequence of observed sizes. -/
def loopState : RenderState → List (ℤ × ℤ) → RenderState
  | s, [] => s
  | s, (w, h) :: rest => loopState (iterateFrame s w h).2 rest

/-- The loop state on entry (bubbles.cpp lines 237, 248, 251):
`totalFrames = 0`, cached size `0 × 0`, no texture yet (`tex = 0`). -/
def initRenderState : RenderState :=
  { totalFrames := 0, lastWidth := 0, lastHeight := 0,
    texCreated := false, texW := 0, texH := 0,
    viewportW := 0, viewportH := 0,
    windowUniformW := 0, windowUniformH := 0 }

/-- The frame-time uniform values uploaded within a list of events. -/
def uploads (evs : List REvent) : List ℕ :=
  evs.filterMap (fun e => match e with | .uploadT t => some t | _ => none)

/-- The tail of `main` after GL loading: run the shader build; on failure return its
exit code with no frame iterations, otherwise run the frame loop over
the observed sizes and return 0 (bubbles.cpp lines 185-315). -/
def runDemo (vres fres lres : CompileResult) (obs : List (ℤ × ℤ)) :
    Int × List (List REvent) :=
  match shaderBuild vres fres lres with
  | (some code, _) => (code, [])
  | (none, _) => (0, loopEvents initRenderState obs)

/-- The FPS accumulators (bubbles.cpp lines 249-250): the frame count
since the last report and the start time of the current interval. -/
structure FpsState where
  frames : ℕ
  start : ℚ

/-- The per-iteration FPS bookkeeping (bubbles.cpp lines 300-309):
increment `frames`, and once `now - start ≥ 2` report
`frames / seconds` and reset both accumulators. -/
def fpsTick (s : FpsState) (tNow : ℚ) : Option ℚ × FpsState :=
  if 2 ≤ tNow - s.start then
    (some (((s.frames + 1 : ℕ) : ℚ) / (tNow - s.start)), { frames := 0, start := tNow })
  else
    (none, { frames := s.frames + 1, start := s.start })

/-- The off-screen target exists and matches the cached framebuffer
size.  The resize branch establishes this; the code never destroys the
target outside that branch. -/
def targetMatchesCache (s : RenderState) : Prop :=
  s.texCreated = true ∧ s.texW = s.lastWidth ∧ s.texH = s.lastHeight

/-! ## Theorems -/

theorem gmod_nonneg (x : ℚ) {y : ℚ} (hy : 0 < y) : 0 ≤ gmod x y := by
  have h := Int.floor_le (x / y)
  have : (⌊x / y⌋ : ℚ) * y ≤ x / y * y := by
    exact mul_le_mul_of_nonneg_right h (le_of_lt hy)
  rw [div_mul_cancel₀ x (ne_of_gt hy)] at this
  unfold gmod
  nlinarith

theorem gmod_lt (x : ℚ) {y : ℚ} (hy : 0 < y) : gmod x y < y := by
  have h := Int.lt_floor_add_one (x / y)
  have : x / y * y < ((⌊x / y⌋ : ℚ) + 1) * y := by
    exact mul_lt_mul_of_pos_right h hy
  rw [div_mul_cancel₀ x (ne_of_gt hy)] at this
  unfold gmod
  nlinarith

theorem gmod_add_right (x : ℚ) {y : ℚ} (hy : y ≠ 0) : gmod (x + y) y = gmod x y := by
  unfold gmod
  have hdiv : (x + y) / y = x / y + 1 := by
    field_simp
  rw [hdiv]
  have hfl : ⌊x / y + (1 : ℚ)⌋ = ⌊x / y⌋ + 1 := by
    exact_mod_cast Int.floor_add_one (x / y)
  rw [hfl]
  push_cast
  ring

theorem gmod_sub_right (x : ℚ) {y : ℚ} (hy : y ≠ 0) : gmod (x - y) y = gmod x y := by
  have := gmod_add_right (x - y) hy
  rw [sub_add_cancel] at this
  exact this.symm

/-- C1.  For `span = W - 2r > 0`, the position fold lies within
`[r, W - r]` on each axis, for every frame index `T`. -/
theorem wrapped_bounds (c0 v r W T : ℚ) (h : 2 * r < W) :
    r ≤ wrapped c0 v r W T ∧ wrapped c0 v r W T ≤ W - r := by
  unfold wrapped
  set span := W - 2 * r with hspan
  have hspanpos : 0 < span := by rw [hspan]; linarith
  have h2span : 0 < span * 2 := by linarith
  set m := gmod (c0 + v * T - r) (span * 2) with hm
  have hm0 : 0 ≤ m := gmod_nonneg _ h2span
  have hm2 : m < span * 2 := gmod_lt _ h2span
  have habs : |span - m| ≤ span := by
    rw [abs_le]
    constructor <;> linarith
  have habs0 : 0 ≤ |span - m| := abs_nonneg _
  constructor <;> [linarith; linarith]

/-- C2.  For `v ≠ 0` and `span = W - 2r > 0`, the position fold is
periodic in `T` with period `2 * span / |v|`. -/
theorem wrapped_periodic (c0 v r W T : ℚ) (hv : v ≠ 0) (h : 2 * r < W) :
    wrapped c0 v r W (T + 2 * (W - 2 * r) / |v|) = wrapped c0 v r W T := by
  unfold wrapped
  set span := W - 2 * r with hspan
  have hspanpos : 0 < span := by rw [hspan]; linarith
  have h2span : span * 2 ≠ 0 := by positivity
  have key : c0 + v * (T + 2 * span / |v|) - r
      = (c0 + v * T - r) + v / |v| * (span * 2) := by
    have habs : |v| ≠ 0 := abs_ne_zero.mpr hv
    field_simp
    ring
  rw [key]
  rcases lt_or_gt_of_ne hv with hneg | hpos
  · have habs : |v| = -v := abs_of_neg hneg
    have hdiv : v / |v| = -1 := by
      rw [habs]; field_simp
    rw [hdiv]
    have : c0 + v * T - r + -1 * (span * 2) = (c0 + v * T - r) - span * 2 := by ring
    rw [this, gmod_sub_right _ h2span]
  · have habs : |v| = v := abs_of_pos hpos
    have hdiv : v / |v| = 1 := by
      rw [habs]; field_simp
    rw [hdiv]
    have : c0 + v * T - r + 1 * (span * 2) = (c0 + v * T - r) + span * 2 := by ring
    rw [this, gmod_add_right _ h2span]

/-- C1 witness at `c0 = 0, v = 0, r = 1, W = 4, T = 0`. -/
theorem wrapped_bounds_witness :
    (1 : ℚ) ≤ wrapped 0 0 1 4 0 ∧ wrapped 0 0 1 4 0 ≤ 4 - 1 :=
  wrapped_bounds 0 0 1 4 0 (by norm_num)

/-- C2 witness at `c0 = 0, v = 1, r = 1, W = 4, T = 0`. -/
theorem wrapped_periodic_witness :
    wrapped 0 1 1 4 (0 + 2 * (4 - 2 * 1) / |(1 : ℚ)|) = wrapped 0 1 1 4 0 :=
  wrapped_periodic 0 1 1 4 0 (by norm_num) (by norm_num)

theorem applyFlag_eq_getD (b : Backend) (arg : String) :
    applyFlag b arg = (flagBackend arg).getD b := by
  unfold applyFlag flagBackend
  split_ifs <;> rfl

theorem getLast?_getD_cons {α : Type} (l : List α) :
    ∀ a d : α, ((a :: l).getLast?).getD d = (l.getLast?).getD a := by
  induction l with
  | nil => intro a d; rfl
  | cons x xs ih =>
      intro a d
      rw [List.getLast?_cons_cons, ih x d, ih x a]

theorem foldl_applyFlag (args : List String) :
    ∀ b : Backend, args.foldl applyFlag b = ((args.filterMap flagBackend).getLast?).getD b := by
  induction args with
  | nil => intro b; rfl
  | cons a rest ih =>
      intro b
      rw [List.foldl_cons, applyFlag_eq_getD]
      cases hfa : flagBackend a with
      | none => simpa [List.filterMap_cons, hfa] using ih b
      | some b2 =>
          simp only [List.filterMap_cons, hfa, Option.getD_some]
          rw [ih b2]
          exact (getLast?_getD_cons (rest.filterMap flagBackend) b2 b).symm

/-- C3.  The resolved backend is the last recognized flag scanned left
to right with unrecognized arguments ignored and default Vulkan; in
particular `--gl --vk --mtl` resolves to Metal and no flags resolve to
Vulkan. -/
theorem parseBackend_last_flag_wins :
    (∀ args : List String, parseBackend args = lastFlagBackend args) ∧
    parseBackend ["--gl", "--vk", "--mtl"] = Backend.metal ∧
    parseBackend [] = Backend.vulkan := by
  refine ⟨fun args => foldl_applyFlag args Backend.vulkan, ?_, rfl⟩
  rfl

theorem lerp_bounds {a b t : ℚ} (hab : a ≤ b) (h0 : 0 ≤ t) (h1 : t ≤ 1) :
    a ≤ lerp a b t ∧ lerp a b t ≤ b := by
  unfold lerp
  constructor
  · nlinarith
  · nlinarith

theorem radius_bias_bounds {t : ℚ} (h0 : 0 ≤ t) (h1 : t ≤ 1) :
    1/10 ≤ lerp (1/10) (3/10) (t ^ 4) ∧ lerp (1/10) (3/10) (t ^ 4) ≤ 3/10 := by
  have h40 : 0 ≤ t ^ 4 := by positivity
  have h41 : t ^ 4 ≤ 1 := pow_le_one₀ h0 h1
  exact lerp_bounds (by norm_num) h40 h41

theorem mkBubble_in_bounds (u : ℕ → ℚ) (h : ∀ i, 0 ≤ u i ∧ u i ≤ 1) :
    0 ≤ (mkBubble u).x - (mkBubble u).r ∧ (mkBubble u).x + (mkBubble u).r ≤ 2048 ∧
    0 ≤ (mkBubble u).y - (mkBubble u).r ∧ (mkBubble u).y + (mkBubble u).r ≤ 2048 := by
  have hr := radius_bias_bounds (h 0).1 (h 0).2
  set rr := lerp (1/10) (3/10) ((u 0) ^ 4) with hrr
  have hle : -1 + rr ≤ 1 - rr := by linarith [hr.1, hr.2]
  have hx := lerp_bounds hle (h 1).1 (h 1).2
  have hy := lerp_bounds hle (h 2).1 (h 2).2
  unfold mkBubble
  simp only [← hrr]
  refine ⟨?_, ?_, ?_, ?_⟩ <;> nlinarith [hx.1, hx.2, hy.1, hy.2, hr.1, hr.2]

/-- C4.  Every generated bubble starts fully inside the 2048×2048 area:
`x - r ≥ 0`, `x + r ≤ 2048`, and likewise for `y`. -/
theorem genBubbles_in_bounds (u : ℕ → ℚ) (h : ∀ i, 0 ≤ u i ∧ u i ≤ 1)
    (b : Bubble) (hb : b ∈ genBubbles u 800) :
    0 ≤ b.x - b.r ∧ b.x + b.r ≤ 2048 ∧ 0 ≤ b.y - b.r ∧ b.y + b.r ≤ 2048 := by
  unfold genBubbles at hb
  rcases List.mem_map.mp hb with ⟨i, _, rfl⟩
  exact mkBubble_in_bounds _ (fun j => h (9 * i + j))

/-- C5.  Every one of the 800 generated bubbles has radius
`lerp(0.1, 0.3, t^4) * 1024` for some draw `t ∈ [0, 1]`, hence radius in
`[0.1 * 1024, 0.3 * 1024]`. -/
theorem genBubbles_radius (u : ℕ → ℚ) (h : ∀ i, 0 ≤ u i ∧ u i ≤ 1)
    (b : Bubble) (hb : b ∈ genBubbles u 800) :
    ∃ t : ℚ, 0 ≤ t ∧ t ≤ 1 ∧ b.r = lerp (1/10) (3/10) (t ^ 4) * 1024 ∧
      (1/10) * 1024 ≤ b.r ∧ b.r ≤ (3/10) * 1024 := by
  unfold genBubbles at hb
  rcases List.mem_map.mp hb with ⟨i, _, rfl⟩
  refine ⟨u (9 * i + 0), (h _).1, (h _).2, rfl, ?_, ?_⟩ <;>
  · have hr := radius_bias_bounds (h (9 * i + 0)).1 (h (9 * i + 0)).2
    show _
    unfold mkBubble
    nlinarith [hr.1, hr.2]

/-- C4 witness: the constant stream `1/2` and the first bubble it generates. -/
theorem genBubbles_in_bounds_witness :
    0 ≤ (mkBubble fun _ => (1/2 : ℚ)).x - (mkBubble fun _ => (1/2 : ℚ)).r ∧
    (mkBubble fun _ => (1/2 : ℚ)).x + (mkBubble fun _ => (1/2 : ℚ)).r ≤ 2048 ∧
    0 ≤ (mkBubble fun _ => (1/2 : ℚ)).y - (mkBubble fun _ => (1/2 : ℚ)).r ∧
    (mkBubble fun _ => (1/2 : ℚ)).y + (mkBubble fun _ => (1/2 : ℚ)).r ≤ 2048 :=
  genBubbles_in_bounds (fun _ => (1/2 : ℚ)) (fun _ => by norm_num)
    (mkBubble fun _ => (1/2 : ℚ))
    (List.mem_map.mpr ⟨0, List.mem_range.mpr (by norm_num), rfl⟩)

/-- C5 witness: the constant stream `1/2` and the first bubble it generates. -/
theorem genBubbles_radius_witness :
    ∃ t : ℚ, 0 ≤ t ∧ t ≤ 1 ∧
      (mkBubble fun _ => (1/2 : ℚ)).r = lerp (1/10) (3/10) (t ^ 4) * 1024 ∧
      (1/10) * 1024 ≤ (mkBubble fun _ => (1/2 : ℚ)).r ∧
      (mkBubble fun _ => (1/2 : ℚ)).r ≤ (3/10) * 1024 :=
  genBubbles_radius (fun _ => (1/2 : ℚ)) (fun _ => by norm_num)
    (mkBubble fun _ => (1/2 : ℚ))
    (List.mem_map.mpr ⟨0, List.mem_range.mpr (by norm_num), rfl⟩)

theorem numberLines_get? : ∀ (lines : List String) (l k : ℕ),
    (numberLines l lines).get? k = (lines.get? k).map (fun s => pad4 (l + k) ++ "| " ++ s) := by
  intro lines
  induction lines with
  | nil => intro l k; simp [numberLines]
  | cons a rest ih =>
      intro l k
      cases k with
      | zero => simp [numberLines]
      | succ k =>
          simp only [numberLines, List.get?_cons_succ, ih (l + 1) k]
          have : l + 1 + k = l + (k + 1) := by omega
          rw [this]

/-- C6 counterexample: on a pure link failure the program prints only
the single linker-diagnostic line to stderr; the numbered source
listing the claim requires does not appear (its first line would be
`   1| #version 310 es`). -/
theorem shaderBuild_link_no_listing :
    shaderBuild ⟨true, ""⟩ ⟨true, ""⟩ ⟨false, "error"⟩
      = (some (-1), ["Failed to link program error"]) ∧
    "   1| #version 310 es" ∉ (shaderBuild ⟨true, ""⟩ ⟨true, ""⟩ ⟨false, "error"⟩).2 ∧
    (numberedSource vsSourceLines).head? = some "   1| #version 310 es" := by
  refine ⟨rfl, ?_, rfl⟩
  decide

/-- C6 (amended).  On a shader compile failure the program prints the
offending source with 1-based line numbers followed by the compiler
diagnostic, deletes the shader object, and exits -1 with no frame-loop
iteration; on a link failure it prints only the linker diagnostic (no
source listing) and exits -1 with no frame-loop iteration. -/
theorem shaderBuild_failure (vres fres lres : CompileResult) (obs : List (ℤ × ℤ)) :
    (vres.ok = false →
      shaderBuild vres fres lres =
        (some (-1), "Failed to compile shader" :: (numberedSource vsSourceLines ++ [vres.log])) ∧
      (compileAndAttachShader vres vsSourceLines).shaderDeleted = true ∧
      runDemo vres fres lres obs = (-1, [])) ∧
    (vres.ok = true → fres.ok = false →
      shaderBuild vres fres lres =
        (some (-1), "Failed to compile shader" :: (numberedSource fsSourceLines ++ [fres.log])) ∧
      runDemo vres fres lres obs = (-1, [])) ∧
    (vres.ok = true → fres.ok = true → lres.ok = false →
      shaderBuild vres fres lres = (some (-1), ["Failed to link program " ++ lres.log]) ∧
      runDemo vres fres lres obs = (-1, [])) ∧
    (∀ (lines : List String) (k : ℕ),
      (numberedSource lines).get? k = (lines.get? k).map (fun s => pad4 (k + 1) ++ "| " ++ s)) := by
  refine ⟨?_, ?_, ?_, ?_⟩
  · intro hv
    simp [shaderBuild, compileAndAttachShader, runDemo, hv]
  · intro hv hf
    simp [shaderBuild, compileAndAttachShader, runDemo, hv, hf]
  · intro hv hf hl
    simp [shaderBuild, compileAndAttachShader, linkProgram, runDemo, hv, hf, hl]
  · intro lines k
    rw [numberedSource, numberLines_get? lines 1 k]
    have : 1 + k = k + 1 := by omega
    rw [this]

/-- C6 witness: a failing vertex-shader compile with log `bad`. -/
theorem shaderBuild_failure_witness :
    shaderBuild ⟨false, "bad"⟩ ⟨true, ""⟩ ⟨true, ""⟩ =
      (some (-1), "Failed to compile shader" :: (numberedSource vsSourceLines ++ ["bad"])) :=
  ((shaderBuild_failure ⟨false, "bad"⟩ ⟨true, ""⟩ ⟨true, ""⟩ []).1 rfl).1

theorem iterateFrame_totalFrames (s : RenderState) (w h : ℤ) :
    (iterateFrame s w h).2.totalFrames = s.totalFrames + 1 := by
  unfold iterateFrame
  split_ifs <;> rfl

theorem loopState_totalFrames : ∀ (obs : List (ℤ × ℤ)) (s : RenderState),
    (loopState s obs).totalFrames = s.totalFrames + obs.length := by
  intro obs
  induction obs with
  | nil => intro s; rfl
  | cons o rest ih =>
      intro s
      cases o with
      | mk w h =>
          simp only [loopState, ih, iterateFrame_totalFrames, List.length_cons]
          omega

theorem loopEvents_get? : ∀ (obs : List (ℤ × ℤ)) (s : RenderState) (k : ℕ),
    (loopEvents s obs).get? k =
      (obs.get? k).map (fun oh => (iterateFrame (loopState s (obs.take k)) oh.1 oh.2).1) := by
  intro obs
  induction obs with
  | nil => intro s k; simp [loopEvents]
  | cons o rest ih =>
      intro s k
      cases o with
      | mk w h =>
          cases k with
          | zero => simp [loopEvents, loopState]
          | succ k =>
              simp only [loopEvents, List.get?_cons_succ, ih _ k, List.take_succ_cons]
              rfl

theorem uploads_iterateFrame (s : RenderState) (w h : ℤ) :
    uploads (iterateFrame s w h).1 = [s.totalFrames] ∧
    List.IsInfix [REvent.uploadT s.totalFrames, REvent.drawInstanced 4 numBubbles]
      (iterateFrame s w h).1 := by
  unfold iterateFrame
  split_ifs with hcond
  · exact ⟨rfl,
      ⟨[REvent.printLine (resizeMessage w h), REvent.recreateTarget w h],
       [REvent.blit w h], rfl⟩⟩
  · exact ⟨rfl, ⟨[], [REvent.blit w h], rfl⟩⟩

/-- C7 counterexample: on the first steady-state iteration the value
uploaded as the frame-time uniform is 0, not 1: `totalFrames++` uploads
the pre-increment value. -/
theorem uploadT_first_iteration_counterexample :
    uploads ((loopEvents initRenderState [((100 : ℤ), (100 : ℤ))]).headD []) = [0] ∧
    uploads ((loopEvents initRenderState [((100 : ℤ), (100 : ℤ))]).headD []) ≠ [1] := by
  constructor
  · rfl
  · intro hcontra
    simp [loopEvents, iterateFrame, initRenderState, uploads] at hcontra

/-- C7 (amended).  On the k-th steady-state iteration (1-based) the
value uploaded as the frame-time uniform is `k - 1` — the counter is
incremented after the upload — and the upload is immediately followed
by the single instanced draw of 800 4-vertex triangle-strip instances.
Stated 0-based: iteration index `k` uploads `k`. -/
theorem uploadT_iteration (obs : List (ℤ × ℤ)) (k : ℕ) (hk : k < obs.length) :
    ∃ ev : List REvent, (loopEvents initRenderState obs).get? k = some ev ∧
      uploads ev = [k] ∧
      List.IsInfix [REvent.uploadT k, REvent.drawInstanced 4 numBubbles] ev := by
  obtain ⟨⟨w, h⟩, hwh⟩ : ∃ oh, obs.get? k = some oh :=
    ⟨obs.get ⟨k, hk⟩, List.get?_eq_get hk⟩
  have htf : (loopState initRenderState (obs.take k)).totalFrames = k := by
    rw [loopState_totalFrames]
    simp [initRenderState, List.length_take]
    omega
  refine ⟨(iterateFrame (loopState initRenderState (obs.take k)) w h).1, ?_, ?_, ?_⟩
  · rw [loopEvents_get?, hwh]
    rfl
  · rw [(uploads_iterateFrame _ w h).1, htf]
  · have := (uploads_iterateFrame (loopState initRenderState (obs.take k)) w h).2
    rwa [htf] at this

/-- C7 witness: two identical observations; the second iteration
(index 1) uploads 1. -/
theorem uploadT_iteration_witness :
    ∃ ev : List REvent,
      (loopEvents initRenderState [((64 : ℤ), (64 : ℤ)), ((64 : ℤ), (64 : ℤ))]).get? 1
        = some ev ∧
      uploads ev = [1] ∧
      List.IsInfix [REvent.uploadT 1, REvent.drawInstanced 4 numBubbles] ev :=
  uploadT_iteration [((64 : ℤ), (64 : ℤ)), ((64 : ℤ), (64 : ℤ))] 1 (by norm_num)

/-- C8.  If the observed framebuffer size equals the cached one, the
iteration performs no target recreation and prints nothing, and the
whole loop state except the frame counter is unchanged; if it differs,
the iteration performs exactly one recreation and prints exactly one
line `rendering <n> bubbles at <w> x <h>`. -/
theorem resize_check (s : RenderState) (w h : ℤ) :
    (s.lastWidth = w ∧ s.lastHeight = h →
      ((iterateFrame s w h).1.filter REvent.isResize) = [] ∧
      ((iterateFrame s w h).1.filter REvent.isStdout) = [] ∧
      (iterateFrame s w h).2 = { s with totalFrames := s.totalFrames + 1 }) ∧
    (s.lastWidth ≠ w ∨ s.lastHeight ≠ h →
      ((iterateFrame s w h).1.filter REvent.isResize) = [REvent.recreateTarget w h] ∧
      ((iterateFrame s w h).1.filter REvent.isStdout)
        = [REvent.printLine (resizeMessage w h)]) := by
  constructor
  · intro heq
    unfold iterateFrame
    rw [if_neg]
    · exact ⟨rfl, rfl, rfl⟩
    · push_neg
      exact heq
  · intro hne
    unfold iterateFrame
    rw [if_pos hne]
    exact ⟨rfl, rfl⟩

/-- C8 witness: the unchanged branch at the initial state observing 0×0
and the changed branch observing 640×480. -/
theorem resize_check_witness :
    ((iterateFrame initRenderState 0 0).1.filter REvent.isResize) = [] ∧
    ((iterateFrame initRenderState 640 480).1.filter REvent.isResize)
      = [REvent.recreateTarget 640 480] :=
  ⟨((resize_check initRenderState 0 0).1 ⟨rfl, rfl⟩).1,
   ((resize_check initRenderState 640 480).2 (Or.inl (by decide))).1⟩

theorem iterateFrame_cache (s : RenderState) (w h : ℤ) :
    (iterateFrame s w h).2.lastWidth = w ∧ (iterateFrame s w h).2.lastHeight = h := by
  unfold iterateFrame
  split_ifs with hc
  · exact ⟨rfl, rfl⟩
  · push_neg at hc
    exact ⟨hc.1, hc.2⟩

theorem iterateFrame_inv (s : RenderState) (w h : ℤ)
    (hs : targetMatchesCache s ∨ (s.lastWidth ≠ w ∨ s.lastHeight ≠ h)) :
    targetMatchesCache (iterateFrame s w h).2 := by
  unfold iterateFrame targetMatchesCache
  split_ifs with hc
  · exact ⟨rfl, rfl, rfl⟩
  · rcases hs with hinv | hne
    · exact hinv
    · exact absurd hne hc

theorem inv_cache_tracking :
    ∀ (l : List (ℤ × ℤ)) (s : RenderState), targetMatchesCache s →
      ∀ (k : ℕ) (w h : ℤ), l.get? k = some (w, h) →
        targetMatchesCache (loopState s (l.take (k + 1))) ∧
        (loopState s (l.take (k + 1))).lastWidth = w ∧
        (loopState s (l.take (k + 1))).lastHeight = h := by
  intro l
  induction l with
  | nil =>
      intro s _ k w h hget
      simp at hget
  | cons a rest ih =>
      intro s hs k w h hget
      cases a with
      | mk aw ah =>
          cases k with
          | zero =>
              simp only [List.get?_cons_zero, Option.some.injEq, Prod.mk.injEq] at hget
              obtain ⟨rfl, rfl⟩ := hget
              simp only [List.take_succ_cons, List.take_zero, loopState]
              exact ⟨iterateFrame_inv _ _ _ (Or.inl hs), iterateFrame_cache _ _ _⟩
          | succ k =>
              simp only [List.get?_cons_succ] at hget
              simp only [List.take_succ_cons, loopState]
              exact ih (iterateFrame s aw ah).2
                (iterateFrame_inv s aw ah (Or.inl hs)) k w h hget

/-- C10 counterexample: if the first observed framebuffer size is 0×0 —
equal to the initial cached size — the resize branch is not taken on
the first iteration, and the instanced draw is issued although no
off-screen target has ever been created. -/
theorem first_draw_without_target_counterexample :
    loopEvents initRenderState [((0 : ℤ), (0 : ℤ))] =
      [[REvent.uploadT 0, REvent.drawInstanced 4 numBubbles, REvent.blit 0 0]] ∧
    (loopState initRenderState [((0 : ℤ), (0 : ℤ))]).texCreated = false := by
  exact ⟨rfl, rfl⟩

/-- C10 (amended).  The first-iteration resize branch is taken exactly
when the observed size differs from the 0×0 initial cache; provided the
first observed size is not 0×0, every iteration draws with an already
created off-screen target matching the most recently observed
framebuffer size. -/
theorem draw_has_target (obs : List (ℤ × ℤ)) (w0 h0 : ℤ)
    (hfirst : obs.get? 0 = some (w0, h0)) (hnz : ¬(w0 = 0 ∧ h0 = 0)) :
    REvent.recreateTarget w0 h0 ∈ (loopEvents initRenderState obs).headD [] ∧
    ∀ (k : ℕ) (w h : ℤ), obs.get? k = some (w, h) →
      targetMatchesCache (loopState initRenderState (obs.take (k + 1))) ∧
      (loopState initRenderState (obs.take (k + 1))).lastWidth = w ∧
      (loopState initRenderState (obs.take (k + 1))).lastHeight = h := by
  cases obs with
  | nil => simp at hfirst
  | cons a rest =>
      cases a with
      | mk aw ah =>
          simp only [List.get?_cons_zero, Option.some.injEq, Prod.mk.injEq] at hfirst
          obtain ⟨rfl, rfl⟩ := hfirst
          have hcond : initRenderState.lastWidth ≠ aw ∨ initRenderState.lastHeight ≠ ah := by
            rcases not_and_or.mp hnz with hw | hh
            · exact Or.inl (fun hinit => hw (by simpa [initRenderState] using hinit.symm))
            · exact Or.inr (fun hinit => hh (by simpa [initRenderState] using hinit.symm))
          have hinv1 : targetMatchesCache (iterateFrame initRenderState aw ah).2 :=
            iterateFrame_inv initRenderState aw ah (Or.inr hcond)
          constructor
          · simp only [loopEvents, List.headD_cons]
            unfold iterateFrame
            rw [if_pos hcond]
            simp
          · intro k w h hget
            cases k with
            | zero =>
                simp only [List.get?_cons_zero, Option.some.injEq, Prod.mk.injEq] at hget
                obtain ⟨rfl, rfl⟩ := hget
                simp only [List.take_succ_cons, List.take_zero, loopState]
                exact ⟨hinv1, iterateFrame_cache _ _ _⟩
            | succ k =>
                simp only [List.get?_cons_succ] at hget
                simp only [List.take_succ_cons, loopState]
                exact inv_cache_tracking rest (iterateFrame initRenderState aw ah).2
                  hinv1 k w h hget

/-- C10 witness: one nonzero observation 100×100. -/
theorem draw_has_target_witness :
    REvent.recreateTarget 100 100 ∈
      (loopEvents initRenderState [((100 : ℤ), (100 : ℤ))]).headD [] ∧
    targetMatchesCache
      (loopState initRenderState ([((100 : ℤ), (100 : ℤ))].take (0 + 1))) := by
  have h := draw_has_target [((100 : ℤ), (100 : ℤ))] 100 100 rfl (by norm_num)
  exact ⟨h.1, (h.2 0 100 100 rfl).1⟩

/-- C9.  Once the accumulated wall-clock time reaches 2 seconds, the
iteration reports `frames / seconds` and resets both accumulators; if
exactly 2 seconds elapsed while `F` frames accumulated, the report is
`F / 2`. -/
theorem fps_report (s : FpsState) (tNow : ℚ) (h : 2 ≤ tNow - s.start) :
    fpsTick s tNow =
      (some (((s.frames + 1 : ℕ) : ℚ) / (tNow - s.start)), { frames := 0, start := tNow }) ∧
    (tNow - s.start = 2 →
      (fpsTick s tNow).1 = some (((s.frames + 1 : ℕ) : ℚ) / 2)) := by
  constructor
  · unfold fpsTick
    rw [if_pos h]
  · intro h2
    unfold fpsTick
    rw [if_pos h, h2]

/-- C9 witness: 9 frames already accumulated, interval start 0, current
time 2: the tenth frame triggers the report `10 / 2`. -/
theorem fps_report_witness :
    (fpsTick { frames := 9, start := 0 } 2).1 = some (((9 + 1 : ℕ) : ℚ) / 2) :=
  (fps_report { frames := 9, start := 0 } 2 (by norm_num)).2 (by norm_num)

end Bubbles
